import Mathlib

/-!
Shallow embedding of the request handlers in `controllers/aquariumController.js`
of the Smart Aquarium API, together with proofs about them.

Each handler is modelled as a pure function from a database state (a list of
table rows) and the request parameters to a pair of an HTTP response and the
database state after the statement ran.  JavaScript body values are modelled by
`JVal` (absent fields are `JVal.undef`); the node-postgres driver converts both
`null` and `undefined` parameters to SQL NULL, which the `jsParam*` conversion
functions reproduce.
-/

namespace Aqua

/-- A JavaScript number: an integer or NaN.  The repository only ever handles
integral quantities (grams, hours, litres, ids), so the embedding uses `Int`
for the numeric part. -/
inductive JsNum where
  | int (i : Int)
  | nan
deriving DecidableEq, Repr

/-- A JavaScript value as it can appear in a parsed JSON request body.
`undef` stands for an absent field (destructuring an absent key yields
`undefined`). -/
inductive JVal where
  | undef
  | null
  | num (n : JsNum)
  | str (s : String)
  | bool (b : Bool)
deriving DecidableEq, Repr

/-- JavaScript truthiness: `undefined`, `null`, `0`, `NaN`, the empty string
and `false` are falsy, everything else modelled here is truthy. -/
def JVal.truthy : JVal → Bool
  | .undef => false
  | .null => false
  | .num (.int i) => i != 0
  | .num .nan => false
  | .str s => s != ""
  | .bool b => b

/-- The JavaScript `Number(v)` conversion on the values modelled here:
`Number(null) = 0`, `Number(undefined) = NaN`, booleans map to 0/1, the empty
string maps to 0, other strings parse as integers or give NaN. -/
def jsNumber : JVal → JsNum
  | .num n => n
  | .bool true => .int 1
  | .bool false => .int 0
  | .null => .int 0
  | .undef => .nan
  | .str s => if s = "" then .int 0 else
      match s.toInt? with
      | some i => .int i
      | none => .nan

/-- `const toNumber = v => (v === null || v === undefined ? null : Number(v))`
from the controller. -/
def toNumber : JVal → JVal
  | .undef => .null
  | .null => .null
  | v => .num (jsNumber v)

/-- The JavaScript expression `v || null`: keep `v` when truthy, else `null`. -/
def jOrNull (v : JVal) : JVal := if v.truthy then v else .null

/-- The JavaScript expression `v || d`: keep `v` when truthy, else `d`. -/
def jOrDefault (v d : JVal) : JVal := if v.truthy then v else d

/-- Conversion of a JavaScript value to a SQL text parameter, as node-postgres
serialises it.  `none` is SQL NULL. -/
def jsParamText : JVal → Option String
  | .undef => none
  | .null => none
  | .str s => some s
  | .num (.int i) => some (toString i)
  | .num .nan => some "NaN"
  | .bool b => some (if b then "true" else "false")

/-- Conversion of a JavaScript value to a SQL integer parameter.  The outer
`none` means the database rejects the statement (type error → the catch block
answers 500); `some none` is SQL NULL. -/
def jsParamInt : JVal → Option (Option Int)
  | .undef => some none
  | .null => some none
  | .num (.int i) => some (some i)
  | .num .nan => none
  | .str s => match s.toInt? with
      | some i => some (some i)
      | none => none
  | .bool _ => none

/-- Conversion of a JavaScript value to a SQL boolean parameter; same failure
convention as `jsParamInt`. -/
def jsParamBool : JVal → Option (Option Bool)
  | .undef => some none
  | .null => some none
  | .bool b => some (some b)
  | .str "true" => some (some true)
  | .str "false" => some (some false)
  | _ => none

/-- An HTTP response: a success with a status code and a returned row, or an
error with a status code and the error code string from the JSON body. -/
inductive HResp (ρ : Type) where
  | ok (status : Nat) (row : ρ)
  | err (status : Nat) (code : String)
deriving DecidableEq, Repr

/-- SQL `COALESCE(new, old)`. -/
def coalesce {α : Type} : Option α → Option α → Option α
  | some v, _ => some v
  | none, old => old

/-- A row of the `aquariums` table. -/
structure Aquarium where
  id : Nat
  user_id : Option Int
  name : Option String
  size_litres : Option Int
  feeding_volume_grams : Option Int
  feeding_period_hours : Option Int
  created_at : Nat
deriving DecidableEq, Repr

/-- A row of the `schedules` table. -/
structure Schedule where
  id : Nat
  device_id : Nat
  name : Option String
  type : Option String
  interval_hours : Option Int
  feed_volume_grams : Option Int
  enabled : Bool
  start_date : Option String
  end_date : Option String
deriving DecidableEq, Repr

/-- A row of the `feeding_logs` table. -/
structure FeedingLog where
  id : Nat
  device_id : Nat
  ts : Nat
  mode : String
  volume_grams : Option Int
  actor : String
deriving DecidableEq, Repr

/-- A row of the `alerts` table. -/
structure Alert where
  id : Nat
  device_id : Nat
  ts : Nat
  resolved : Bool
  resolved_at : Option Nat
deriving DecidableEq, Repr

/-- A row of the `sensor_data` table; `value` stands for the measurement
columns, which this layer never inspects. -/
structure SensorReading where
  id : Nat
  device_id : Nat
  ts : Nat
  value : Int
deriving DecidableEq, Repr

/-- Body of `POST /aquariums`. -/
structure CreateAquariumBody where
  user_id : JVal
  name : JVal
  size_litres : JVal
deriving DecidableEq, Repr

/-- Handler 1, `createAquarium`: `if (!user_id || !name)` answer 400, else
insert the row and answer 201 with the created row (generated `id` and
`created_at` supplied by the database). -/
def createAquarium (st : List Aquarium) (b : CreateAquariumBody)
    (newId now : Nat) : HResp Aquarium × List Aquarium :=
  if !(b.user_id.truthy && b.name.truthy) then
    (.err 400 "user_id and name required", st)
  else
    match jsParamInt b.user_id, jsParamText b.name, jsParamInt b.size_litres with
    | some uid, nm, some sz =>
        let row : Aquarium :=
          { id := newId, user_id := uid, name := nm, size_litres := sz,
            feeding_volume_grams := none, feeding_period_hours := none,
            created_at := now }
        (.ok 201 row, st ++ [row])
    | _, _, _ => (.err 500 "internal_error", st)

/-- Body of `PUT /aquariums/:id`; each field is absent/null (`none`, sent to
SQL as NULL) or a value of the column type. -/
structure AquariumUpdateBody where
  name : Option String
  size_litres : Option Int
  feeding_volume_grams : Option Int
  feeding_period_hours : Option Int
deriving DecidableEq, Repr

/-- The `SET` clause of handler 10: every updatable column is
`COALESCE(param, column)`; the remaining columns are not in the clause. -/
def applyAquariumUpdate (b : AquariumUpdateBody) (a : Aquarium) : Aquarium :=
  { a with
    name := coalesce b.name a.name,
    size_litres := coalesce b.size_litres a.size_litres,
    feeding_volume_grams := coalesce b.feeding_volume_grams a.feeding_volume_grams,
    feeding_period_hours := coalesce b.feeding_period_hours a.feeding_period_hours }

/-- Handler 10, `updateAquarium`: `UPDATE aquariums SET ... WHERE id = $5
RETURNING *`; `rowCount === 0` answers 404. -/
def updateAquarium (st : List Aquarium) (pathId : Nat)
    (b : AquariumUpdateBody) : HResp Aquarium × List Aquarium :=
  let st2 := st.map fun a => if a.id == pathId then applyAquariumUpdate b a else a
  match st2.filter (fun a => a.id == pathId) with
  | [] => (.err 404 "not_found", st)
  | r :: _ => (.ok 200 r, st2)

/-- Body of `POST /aquariums/:id/feeding_settings`. -/
structure CreateScheduleBody where
  name : JVal
  type : JVal
  interval_hours : JVal
  feed_volume_grams : JVal
  start_date : JVal
  end_date : JVal
  enabled : JVal
deriving DecidableEq, Repr

/-- Handler 2, `createFeedingSetting`: `if (!type)` answer 400; the optional
fields are passed as `field || null`, `enabled` is passed raw and defaulted in
SQL by `COALESCE($6, true)`. -/
def createFeedingSetting (st : List Schedule) (pathId : Nat)
    (b : CreateScheduleBody) (newId : Nat) : HResp Schedule × List Schedule :=
  if !b.type.truthy then
    (.err 400 "type required (interval|daily_times)", st)
  else
    match jsParamInt (jOrNull b.interval_hours),
          jsParamInt (jOrNull b.feed_volume_grams),
          jsParamBool b.enabled with
    | some ih, some fv, some en =>
        let row : Schedule :=
          { id := newId, device_id := pathId,
            name := jsParamText (jOrNull b.name),
            type := jsParamText b.type,
            interval_hours := ih, feed_volume_grams := fv,
            enabled := en.getD true,
            start_date := jsParamText (jOrNull b.start_date),
            end_date := jsParamText (jOrNull b.end_date) }
        (.ok 201 row, st ++ [row])
    | _, _, _ => (.err 500 "internal_error", st)

/-- Body of `PUT /aquariums/:id/feeding_settings`; the partial-update fields
follow the same absent/null convention as `AquariumUpdateBody`. -/
structure ScheduleUpdateBody where
  settingId : Nat
  name : Option String
  type : Option String
  interval_hours : Option Int
  feed_volume_grams : Option Int
  enabled : Option Bool
  start_date : Option String
  end_date : Option String
deriving DecidableEq, Repr

/-- The `SET` clause of handler 11: every column except `id` and `device_id`
is `COALESCE(param, column)`. -/
def applyScheduleUpdate (b : ScheduleUpdateBody) (s : Schedule) : Schedule :=
  { s with
    name := coalesce b.name s.name,
    type := coalesce b.type s.type,
    interval_hours := coalesce b.interval_hours s.interval_hours,
    feed_volume_grams := coalesce b.feed_volume_grams s.feed_volume_grams,
    enabled := (coalesce b.enabled (some s.enabled)).getD s.enabled,
    start_date := coalesce b.start_date s.start_date,
    end_date := coalesce b.end_date s.end_date }

/-- Handler 11, `updateFeedingSetting`: `if (!settingId)` answer 400 (the id
`0` is falsy); then `SELECT ... WHERE id = $1 AND device_id = $2` and answer
404 `schedule_not_found` when no row matches; else `UPDATE schedules SET ...
WHERE id = $8 RETURNING *`. -/
def updateFeedingSetting (st : List Schedule) (pathId : Nat)
    (b : ScheduleUpdateBody) : HResp Schedule × List Schedule :=
  if b.settingId == 0 then
    (.err 400 "settingId required in body", st)
  else if (st.filter (fun s => s.id == b.settingId && s.device_id == pathId)).isEmpty then
    (.err 404 "schedule_not_found", st)
  else
    let st2 := st.map fun s => if s.id == b.settingId then applyScheduleUpdate b s else s
    match st2.filter (fun s => s.id == b.settingId) with
    | [] => (.err 500 "internal_error", st2)
    | r :: _ => (.ok 200 r, st2)

/-- Handler 14, `deleteFeedingSetting`: the `settingId` comes from the path
(no falsiness guard); `SELECT ... WHERE id = $1 AND device_id = $2` answers
404 `schedule_not_found` when no row matches, else `DELETE FROM schedules
WHERE id = $1`. -/
def deleteFeedingSetting (st : List Schedule) (pathId settingId : Nat) :
    HResp Unit × List Schedule :=
  if (st.filter (fun s => s.id == settingId && s.device_id == pathId)).isEmpty then
    (.err 404 "schedule_not_found", st)
  else
    (.ok 200 (), st.filter (fun s => !(s.id == settingId)))

/-- Body of `POST /aquariums/:id/feed`. -/
structure FeedBody where
  volume_grams : JVal
  actor : JVal
deriving DecidableEq, Repr

/-- Extraction of the SQL integer parameter for the normalized volume.  After
`toNumber(volume_grams) || null` the value is either `null` or a truthy
integer, so this conversion never fails. -/
def volParam : JVal → Option Int
  | .num (.int i) => some i
  | _ => none

/-- The `feeding_logs` row built by handler 3: `mode = 'MANUAL'`, the volume
parameter `toNumber(volume_grams) || null`, and the actor parameter
`actor || 'user'`. -/
def feedLogRow (pathId : Nat) (b : FeedBody) (newId now : Nat) : FeedingLog :=
  { id := newId, device_id := pathId, ts := now, mode := "MANUAL",
    volume_grams := volParam (jOrNull (toNumber b.volume_grams)),
    actor := (jsParamText (jOrDefault b.actor (.str "user"))).getD "user" }

/-- Handler 3, `triggerFeed`: `const vol = toNumber(volume_grams) || null`;
insert a `feeding_logs` row with `mode = MANUAL`, `actor || 'user'`, and
answer 201 with the created row. -/
def triggerFeed (st : List FeedingLog) (pathId : Nat) (b : FeedBody)
    (newId now : Nat) : HResp FeedingLog × List FeedingLog :=
  (.ok 201 (feedLogRow pathId b newId now), st ++ [feedLogRow pathId b newId now])

/-- Body of `PUT /aquariums/:id/alerts`. -/
structure AlertUpdateBody where
  alertId : Nat
  resolved : JVal
deriving DecidableEq, Repr

/-- The coercion `resolved === true || resolved === 'true'` of handler 12. -/
def coerceResolved (v : JVal) : Bool := v == .bool true || v == .str "true"

/-- Handler 12, `updateAlertStatus`: `if (!alertId)` answer 400; ownership
check `SELECT ... WHERE id = $1 AND device_id = $2` answers 404
`alert_not_found`; else `UPDATE alerts SET resolved = $1, resolved_at = CASE
WHEN $1 THEN now() ELSE NULL END WHERE id = $2 RETURNING *`. -/
def updateAlertStatus (st : List Alert) (pathId : Nat) (b : AlertUpdateBody)
    (now : Nat) : HResp Alert × List Alert :=
  if b.alertId == 0 then
    (.err 400 "alertId required", st)
  else if (st.filter (fun a => a.id == b.alertId && a.device_id == pathId)).isEmpty then
    (.err 404 "alert_not_found", st)
  else
    let r := coerceResolved b.resolved
    let st2 := st.map fun a =>
      if a.id == b.alertId then
        { a with resolved := r, resolved_at := if r then some now else none }
      else a
    match st2.filter (fun a => a.id == b.alertId) with
    | [] => (.err 500 "internal_error", st2)
    | row :: _ => (.ok 200 row, st2)

/-- Insertion (descending by `key`) into an already processed list. -/
def insDescBy {α : Type} (key : α → Nat) (x : α) : List α → List α
  | [] => [x]
  | y :: ys => if key y ≤ key x then x :: y :: ys else y :: insDescBy key x ys

/-- Insertion sort, descending by `key`: the model of SQL `ORDER BY ... DESC`. -/
def sortDescBy {α : Type} (key : α → Nat) : List α → List α
  | [] => []
  | x :: xs => insDescBy key x (sortDescBy key xs)

/-- Handler 7, `getConditionHistory`: `SELECT * FROM sensor_data WHERE
device_id = $1` plus `AND ts >= start` / `AND ts <= end` when the query
parameters are present, `ORDER BY ts DESC LIMIT 500`. -/
def getConditionHistory (rows : List SensorReading) (pathId : Nat)
    (tstart tend : Option Nat) : List SensorReading :=
  let keep := rows.filter fun s =>
    s.device_id == pathId
    && (match tstart with | some t => t ≤ s.ts | none => true)
    && (match tend with | some t => s.ts ≤ t | none => true)
  (sortDescBy (fun s => s.ts) keep).take 500

/-- `date_trunc('day', ts)` on a timestamp counted in seconds. -/
def dayOf (ts : Nat) : Nat := ts / 86400

/-- SQL `SUM(volume_grams)` over one group: NULL volumes are ignored and a
group with only NULL volumes sums to NULL. -/
def daySumOpt (logs : List FeedingLog) (dev day : Nat) : Option Int :=
  let vols := (logs.filter fun l => l.device_id == dev && dayOf l.ts == day).filterMap
    (fun l => l.volume_grams)
  if vols.isEmpty then none else some (vols.foldl (· + ·) 0)

/-- The `Number(r.consumed)` coercion applied to each row before
serialization: `Number(null) = 0`. -/
def jsonConsumed : Option Int → Int
  | none => 0
  | some s => s

/-- The distinct calendar days on which an aquarium has feeding logs: the
groups produced by `GROUP BY date_trunc('day', ts)`. -/
def logDays (logs : List FeedingLog) (dev : Nat) : List Nat :=
  ((logs.filter fun l => l.device_id == dev).map fun l => dayOf l.ts).dedup

/-- Handler 8, `getDailyConsumption`: group the feeding logs of the aquarium
by `date_trunc('day', ts)`, `SUM(volume_grams)` per group, `ORDER BY 1 DESC
LIMIT 30`, then map each row to `{date, consumed: Number(consumed)}`. -/
def getDailyConsumption (logs : List FeedingLog) (dev : Nat) :
    List (Nat × Int) :=
  ((sortDescBy id (logDays logs dev)).take 30).map
    fun d => (d, jsonConsumed (daySumOpt logs dev d))

/-! ### Sorting lemmas for the `ORDER BY ... DESC` model -/

theorem mem_insDescBy {α : Type} (key : α → Nat) (x : α) (l : List α) (a : α) :
    a ∈ insDescBy key x l ↔ a = x ∨ a ∈ l := by
  induction l with
  | nil => simp [insDescBy]
  | cons y ys ih =>
      by_cases h : key y ≤ key x
      · simp [insDescBy, h]
      · simp only [insDescBy, if_neg h, List.mem_cons, ih]
        tauto

theorem insDescBy_perm {α : Type} (key : α → Nat) (x : α) (l : List α) :
    List.Perm (insDescBy key x l) (x :: l) := by
  induction l with
  | nil => exact List.Perm.refl _
  | cons y ys ih =>
      by_cases h : key y ≤ key x
      · simp [insDescBy, h]
      · rw [insDescBy, if_neg h]
        exact (ih.cons y).trans (List.Perm.swap x y ys)

theorem sortDescBy_perm {α : Type} (key : α → Nat) (l : List α) :
    List.Perm (sortDescBy key l) l := by
  induction l with
  | nil => exact List.Perm.refl _
  | cons x xs ih => exact (insDescBy_perm key x _).trans (ih.cons x)

theorem pairwise_insDescBy {α : Type} (key : α → Nat) (x : α) (l : List α)
    (h : l.Pairwise (fun a b => key b ≤ key a)) :
    (insDescBy key x l).Pairwise (fun a b => key b ≤ key a) := by
  induction l with
  | nil => simp [insDescBy]
  | cons y ys ih =>
      rcases List.pairwise_cons.mp h with ⟨hy, hys⟩
      by_cases hle : key y ≤ key x
      · rw [insDescBy, if_pos hle]
        refine List.pairwise_cons.mpr ⟨?_, h⟩
        intro b hb
        rcases List.mem_cons.mp hb with rfl | hbys
        · exact hle
        · exact le_trans (hy b hbys) hle
      · rw [insDescBy, if_neg hle]
        refine List.pairwise_cons.mpr ⟨?_, ih hys⟩
        intro b hb
        rcases (mem_insDescBy key x ys b).mp hb with rfl | hbys
        · exact le_of_not_le hle
        · exact hy b hbys

theorem pairwise_sortDescBy {α : Type} (key : α → Nat) (l : List α) :
    (sortDescBy key l).Pairwise (fun a b => key b ≤ key a) := by
  induction l with
  | nil => simp [sortDescBy]
  | cons x xs ih => exact pairwise_insDescBy key x _ ih

/-! ### Helper lemmas about `updateAquarium` -/

theorem updateAquarium_filter_nil (st : List Aquarium) (pathId : Nat)
    (b : AquariumUpdateBody)
    (h : (st.map fun a => if a.id == pathId then applyAquariumUpdate b a else a).filter
      (fun a => a.id == pathId) = []) :
    ∀ a ∈ st, a.id ≠ pathId := by
  intro a ha heq
  have hmem : applyAquariumUpdate b a ∈
      st.map fun a => if a.id == pathId then applyAquariumUpdate b a else a := by
    refine List.mem_map.mpr ⟨a, ha, ?_⟩
    simp [heq]
  have hnp := List.filter_eq_nil_iff.mp h _ hmem
  apply hnp
  simp [applyAquariumUpdate, heq]

theorem updateAquarium_map_id (st : List Aquarium) (pathId : Nat)
    (b : AquariumUpdateBody) (h : ∀ a ∈ st, a.id ≠ pathId) :
    (st.map fun a => if a.id == pathId then applyAquariumUpdate b a else a) = st := by
  induction st with
  | nil => rfl
  | cons a as ih =>
      have hne : ¬(a.id == pathId) = true := by
        simp [h a (List.mem_cons_self a as)]
      simp only [List.map_cons, if_neg hne,
        ih (fun x hx => h x (List.mem_cons_of_mem a hx))]

/-- C2: for an aquarium update on an existing id, each of the four updatable
fields that arrives absent or null keeps its stored value and each field with
a non-null value takes the new value; `id`, `user_id` and `created_at` are
untouched, rows with a different id are unchanged, and a nonexistent id gives
404 with no state change. -/
theorem updateAquarium_null_merge (st : List Aquarium) (pathId : Nat)
    (b : AquariumUpdateBody) :
    ((∀ a ∈ st, a.id ≠ pathId) →
      updateAquarium st pathId b = (.err 404 "not_found", st)) ∧
    ((updateAquarium st pathId b).2 =
      st.map fun a => if a.id == pathId then applyAquariumUpdate b a else a) ∧
    (∀ a : Aquarium,
      (applyAquariumUpdate b a).id = a.id ∧
      (applyAquariumUpdate b a).user_id = a.user_id ∧
      (applyAquariumUpdate b a).created_at = a.created_at ∧
      (b.name = none → (applyAquariumUpdate b a).name = a.name) ∧
      (∀ v, b.name = some v → (applyAquariumUpdate b a).name = some v) ∧
      (b.size_litres = none →
        (applyAquariumUpdate b a).size_litres = a.size_litres) ∧
      (∀ v, b.size_litres = some v →
        (applyAquariumUpdate b a).size_litres = some v) ∧
      (b.feeding_volume_grams = none →
        (applyAquariumUpdate b a).feeding_volume_grams = a.feeding_volume_grams) ∧
      (∀ v, b.feeding_volume_grams = some v →
        (applyAquariumUpdate b a).feeding_volume_grams = some v) ∧
      (b.feeding_period_hours = none →
        (applyAquariumUpdate b a).feeding_period_hours = a.feeding_period_hours) ∧
      (∀ v, b.feeding_period_hours = some v →
        (applyAquariumUpdate b a).feeding_period_hours = some v)) := by
  refine ⟨?_, ?_, ?_⟩
  · intro h
    have hmap := updateAquarium_map_id st pathId b h
    have hfil : st.filter (fun a => a.id == pathId) = [] := by
      refine List.filter_eq_nil_iff.mpr ?_
      intro a ha
      simp [h a ha]
    simp only [updateAquarium]
    rw [hmap, hfil]
  · rcases hf : (st.map fun a =>
        if a.id == pathId then applyAquariumUpdate b a else a).filter
        (fun a => a.id == pathId) with _ | ⟨r, rs⟩
    · have h := updateAquarium_filter_nil st pathId b hf
      have hmap := updateAquarium_map_id st pathId b h
      simp only [updateAquarium]
      rw [hf, hmap]
    · simp only [updateAquarium]
      rw [hf]
  · intro a
    refine ⟨rfl, rfl, rfl, ?_, ?_, ?_, ?_, ?_, ?_, ?_, ?_⟩ <;>
      first
      | (intro h; simp [applyAquariumUpdate, coalesce, h])
      | (intro v h; simp [applyAquariumUpdate, coalesce, h])

/-- Witness for C2 at a concrete state: a request on an id that is not in the
table answers 404 and leaves the single stored row unchanged. -/
theorem updateAquarium_null_merge_witness :
    updateAquarium [⟨1, some 1, some "A", some 50, none, none, 0⟩] 2
      ⟨some "X", none, none, none⟩ =
      (.err 404 "not_found", [⟨1, some 1, some "A", some 50, none, none, 0⟩]) :=
  (updateAquarium_null_merge _ 2 _).1 (by decide)

/-- C7 counterexample: a request whose `user_id` is present (the number 0,
not `undefined`) and whose `name` is present still answers 400 and inserts
nothing, refuting the claim that any request with both fields present
succeeds with 201. -/
theorem createAquarium_falsy_present_counterexample :
    (JVal.num (.int 0)) ≠ JVal.undef ∧ (JVal.str "Tank A") ≠ JVal.undef ∧
    createAquarium [] ⟨.num (.int 0), .str "Tank A", .null⟩ 1 0 =
      (.err 400 "user_id and name required", []) := by decide

/-- C7 (amended): a creation request in which `user_id` or `name` is missing
or falsy answers 400 with a validation error and inserts nothing; a request
in which both are truthy and of a storable type inserts one row and answers
201 with the created row carrying the generated id and timestamp. -/
theorem createAquarium_validation (st : List Aquarium) (b : CreateAquariumBody)
    (newId now : Nat) :
    (¬(b.user_id.truthy = true ∧ b.name.truthy = true) →
      createAquarium st b newId now = (.err 400 "user_id and name required", st)) ∧
    (∀ uid sz, b.user_id.truthy = true → b.name.truthy = true →
      jsParamInt b.user_id = some uid → jsParamInt b.size_litres = some sz →
      createAquarium st b newId now =
        (.ok 201 ⟨newId, uid, jsParamText b.name, sz, none, none, now⟩,
         st ++ [⟨newId, uid, jsParamText b.name, sz, none, none, now⟩])) := by
  constructor
  · intro h
    cases hu : b.user_id.truthy
    · simp [createAquarium, hu]
    · cases hn : b.name.truthy
      · simp [createAquarium, hu, hn]
      · exact absurd ⟨hu, hn⟩ h
  · intro uid sz hu hn hui hsz
    simp [createAquarium, hu, hn, hui, hsz]

/-- Witness for C7 (amended): a concrete valid request creates the row. -/
theorem createAquarium_validation_witness :
    createAquarium [] ⟨.num (.int 7), .str "Tank B", .null⟩ 4 9 =
      (.ok 201 ⟨4, some 7, some "Tank B", none, none, none, 9⟩,
       [⟨4, some 7, some "Tank B", none, none, none, 9⟩]) :=
  (createAquarium_validation [] ⟨.num (.int 7), .str "Tank B", .null⟩ 4 9).2
    (some 7) none rfl rfl rfl rfl

/-- C8: the required-field check of `createAquarium` is a falsiness test: a
`user_id` equal to `0` or the empty string, or an empty-string `name`, is
rejected with 400 exactly as when the field is absent, with no insertion. -/
theorem createAquarium_falsiness_check (st : List Aquarium)
    (b : CreateAquariumBody) (newId now : Nat) :
    (b.user_id = .num (.int 0) ∨ b.user_id = .str "" ∨ b.name = .str "" ∨
     b.user_id = .undef ∨ b.name = .undef) →
    createAquarium st b newId now = (.err 400 "user_id and name required", st) ∧
    createAquarium st b newId now =
      createAquarium st ⟨.undef, .undef, b.size_litres⟩ newId now := by
  intro h
  have hfalse : (b.user_id.truthy && b.name.truthy) = false := by
    rcases h with h | h | h | h | h <;> simp [h, JVal.truthy]
  have h1 : createAquarium st b newId now =
      (.err 400 "user_id and name required", st) := by
    simp [createAquarium, hfalse]
  have h2 : createAquarium st ⟨.undef, .undef, b.size_litres⟩ newId now =
      (.err 400 "user_id and name required", st) := rfl
  exact ⟨h1, h1.trans h2.symm⟩

/-- Witness for C8: a present-but-zero `user_id` is rejected like an absent
one. -/
theorem createAquarium_falsiness_check_witness :
    createAquarium [] ⟨.num (.int 0), .str "Tank", .null⟩ 1 0 =
      (.err 400 "user_id and name required", []) :=
  ((createAquarium_falsiness_check [] ⟨.num (.int 0), .str "Tank", .null⟩ 1 0)
    (Or.inl rfl)).1

/-! ### Schedule scoping (C1) -/

/-- C1 counterexample: an update request whose body `settingId` is the falsy
id 0, which names no existing schedule in the empty table, answers 400
`settingId required in body`, not the 404 `schedule_not_found` the claim
requires for every request naming no existing schedule. -/
theorem updateFeedingSetting_falsy_settingId_counterexample :
    updateFeedingSetting [] 5 ⟨0, none, none, none, none, none, none, none⟩ =
      (.err 400 "settingId required in body", []) ∧
    (HResp.err 400 "settingId required in body" : HResp Schedule) ≠
      .err 404 "schedule_not_found" := by decide

/-- C1 (amended): a schedule update or delete whose settingId names a
schedule of a different aquarium than the path id, or names no existing
schedule, answers 404 `schedule_not_found` and leaves the schedules
unchanged — except that an update whose settingId is falsy (0) answers 400
`settingId required in body` instead, still changing nothing. -/
theorem updateDeleteSchedule_wrong_aquarium_404 (st : List Schedule)
    (pathId : Nat) (b : ScheduleUpdateBody)
    (h : ∀ s ∈ st, ¬(s.id = b.settingId ∧ s.device_id = pathId)) :
    (b.settingId ≠ 0 →
      updateFeedingSetting st pathId b = (.err 404 "schedule_not_found", st)) ∧
    (b.settingId = 0 →
      updateFeedingSetting st pathId b =
        (.err 400 "settingId required in body", st)) ∧
    deleteFeedingSetting st pathId b.settingId =
      (.err 404 "schedule_not_found", st) := by
  have hfil : st.filter
      (fun s => s.id == b.settingId && s.device_id == pathId) = [] := by
    refine List.filter_eq_nil_iff.mpr ?_
    intro s hs
    simp only [Bool.and_eq_true, beq_iff_eq]
    exact fun hc => h s hs ⟨hc.1, hc.2⟩
  refine ⟨?_, ?_, ?_⟩
  · intro hsid
    have hbeq : (b.settingId == 0) = false := by simp [hsid]
    simp [updateFeedingSetting, hbeq, hfil]
  · intro hsid
    simp [updateFeedingSetting, hsid]
  · simp [deleteFeedingSetting, hfil]

/-- Witness for C1 (amended): a schedule that belongs to aquarium 9 cannot be
updated through the path of aquarium 5. -/
theorem updateDeleteSchedule_wrong_aquarium_404_witness :
    updateFeedingSetting
      [⟨3, 9, none, some "interval", none, none, true, none, none⟩] 5
      ⟨3, none, none, none, none, none, none, none⟩ =
      (.err 404 "schedule_not_found",
       [⟨3, 9, none, some "interval", none, none, true, none, none⟩]) :=
  (updateDeleteSchedule_wrong_aquarium_404
    [⟨3, 9, none, some "interval", none, none, true, none, none⟩] 5
    ⟨3, none, none, none, none, none, none, none⟩ (by decide)).1 (by decide)

/-! ### Alert resolution (C3, C9) -/

/-- After a passed guard and ownership check, the alerts table afterwards is
the pointwise image setting `resolved` and `resolved_at` on every row whose
id is the requested one. -/
theorem updateAlertStatus_state (st : List Alert) (pathId : Nat)
    (b : AlertUpdateBody) (now : Nat) (h0 : b.alertId ≠ 0)
    (hown : ∃ a ∈ st, a.id = b.alertId ∧ a.device_id = pathId) :
    (updateAlertStatus st pathId b now).2 = st.map fun a =>
      if a.id == b.alertId then
        { a with resolved := coerceResolved b.resolved,
                 resolved_at :=
                   if coerceResolved b.resolved then some now else none }
      else a := by
  obtain ⟨a, ha, hid, hdev⟩ := hown
  have hbeq : (b.alertId == 0) = false := by simp [h0]
  have hafil : a ∈ st.filter
      (fun x => x.id == b.alertId && x.device_id == pathId) :=
    List.mem_filter.mpr ⟨ha, by simp [hid, hdev]⟩
  have hne : (st.filter
      (fun x => x.id == b.alertId && x.device_id == pathId)).isEmpty = false := by
    cases hf : st.filter (fun x => x.id == b.alertId && x.device_id == pathId) with
    | nil => rw [hf] at hafil; cases hafil
    | cons r rs => rfl
  simp only [updateAlertStatus, hbeq, Bool.false_eq_true, if_false, hne]
  cases hf2 : (st.map fun x =>
      if x.id == b.alertId then
        { x with resolved := coerceResolved b.resolved,
                 resolved_at :=
                   if coerceResolved b.resolved then some now else none }
      else x).filter (fun x => x.id == b.alertId) <;> simp [hf2]

/-- After a passed guard and ownership check the handler answers 200 with a
returned row. -/
theorem updateAlertStatus_responds_ok (st : List Alert) (pathId : Nat)
    (b : AlertUpdateBody) (now : Nat) (h0 : b.alertId ≠ 0)
    (hown : ∃ a ∈ st, a.id = b.alertId ∧ a.device_id = pathId) :
    ∃ row, (updateAlertStatus st pathId b now).1 = .ok 200 row := by
  obtain ⟨a, ha, hid, hdev⟩ := hown
  have hbeq : (b.alertId == 0) = false := by simp [h0]
  have hafil : a ∈ st.filter
      (fun x => x.id == b.alertId && x.device_id == pathId) :=
    List.mem_filter.mpr ⟨ha, by simp [hid, hdev]⟩
  have hne : (st.filter
      (fun x => x.id == b.alertId && x.device_id == pathId)).isEmpty = false := by
    cases hf : st.filter (fun x => x.id == b.alertId && x.device_id == pathId) with
    | nil => rw [hf] at hafil; cases hafil
    | cons r rs => rfl
  have ha2 : ({ a with
      resolved := coerceResolved b.resolved,
      resolved_at := if coerceResolved b.resolved then some now else none } : Alert) ∈
      (st.map fun x =>
        if x.id == b.alertId then
          { x with resolved := coerceResolved b.resolved,
                   resolved_at :=
                     if coerceResolved b.resolved then some now else none }
        else x).filter (fun x => x.id == b.alertId) := by
    refine List.mem_filter.mpr ⟨List.mem_map.mpr ⟨a, ha, by simp [hid]⟩, by simp [hid]⟩
  simp only [updateAlertStatus, hbeq, Bool.false_eq_true, if_false, hne]
  cases hf2 : (st.map fun x =>
      if x.id == b.alertId then
        { x with resolved := coerceResolved b.resolved,
                 resolved_at :=
                   if coerceResolved b.resolved then some now else none }
      else x).filter (fun x => x.id == b.alertId) with
  | nil => rw [hf2] at ha2; cases ha2
  | cons r rs => exact ⟨r, by simp [hf2]⟩

/-- In the mapped table, every row carrying the requested id has the newly
computed `resolved` flag and `resolved_at` stamp. -/
theorem alert_fields_after (st : List Alert) (b : AlertUpdateBody) (now : Nat) :
    ∀ x ∈ (st.map fun a =>
      if a.id == b.alertId then
        { a with resolved := coerceResolved b.resolved,
                 resolved_at :=
                   if coerceResolved b.resolved then some now else none }
      else a), x.id = b.alertId →
      x.resolved = coerceResolved b.resolved ∧
      x.resolved_at = (if coerceResolved b.resolved then some now else none) := by
  intro x hx hxid
  obtain ⟨a, ha, rfl⟩ := List.mem_map.mp hx
  by_cases hcase : (a.id == b.alertId) = true
  · simp [hcase]
  · rw [if_neg hcase] at hxid ⊢
    exact absurd hxid (by simpa using hcase)

/-- C3: when the guard and ownership check pass, the stored alert afterwards
has `resolved_at` non-null (stamped with the current time) exactly when the
coerced `resolved` flag is true and null when it is false; the flag is
accepted as boolean `true` or the string `true`; and the update applies to
any prior state, so a resolved alert may transition back to unresolved. -/
theorem updateAlertStatus_resolved_at_iff (st : List Alert) (pathId : Nat)
    (b : AlertUpdateBody) (now : Nat) (h0 : b.alertId ≠ 0)
    (hown : ∃ a ∈ st, a.id = b.alertId ∧ a.device_id = pathId) :
    (∃ row, (updateAlertStatus st pathId b now).1 = .ok 200 row) ∧
    coerceResolved (.bool true) = true ∧
    coerceResolved (.str "true") = true ∧
    (∀ x ∈ (updateAlertStatus st pathId b now).2, x.id = b.alertId →
      x.resolved = coerceResolved b.resolved ∧
      (x.resolved_at ≠ none ↔ coerceResolved b.resolved = true) ∧
      (coerceResolved b.resolved = true → x.resolved_at = some now) ∧
      (coerceResolved b.resolved = false →
        x.resolved = false ∧ x.resolved_at = none)) := by
  refine ⟨updateAlertStatus_responds_ok st pathId b now h0 hown, rfl, rfl, ?_⟩
  intro x hx hxid
  rw [updateAlertStatus_state st pathId b now h0 hown] at hx
  obtain ⟨hres, hat⟩ := alert_fields_after st b now x hx hxid
  cases hcr : coerceResolved b.resolved with
  | false =>
      rw [hcr] at hres hat
      simp only [Bool.false_eq_true, if_false] at hat
      exact ⟨hres, by simp [hat], by simp, fun _ => ⟨hres, hat⟩⟩
  | true =>
      rw [hcr] at hres hat
      simp only [if_true] at hat
      exact ⟨hres, by simp [hat], fun _ => hat, by simp⟩

/-- Witness for C3: a resolved alert of aquarium 5 is set back to unresolved
by a `resolved: false` request, clearing `resolved_at`. -/
theorem updateAlertStatus_resolved_at_iff_witness :
    (updateAlertStatus [⟨2, 5, 100, true, some 50⟩] 5 ⟨2, .bool false⟩ 77).2 =
      [⟨2, 5, 100, false, none⟩] ∧
    ((⟨2, 5, 100, false, none⟩ : Alert).resolved = false ∧
     (⟨2, 5, 100, false, none⟩ : Alert).resolved_at = none) :=
  ⟨by decide,
   ((updateAlertStatus_resolved_at_iff [⟨2, 5, 100, true, some 50⟩] 5
      ⟨2, .bool false⟩ 77 (by decide) (by decide)).2.2.2
      ⟨2, 5, 100, false, none⟩ (by decide) rfl).2.2.2 rfl⟩

/-- C9: any `resolved` value other than boolean `true` or the exact string
`true` — including `false`, the strings `false` and `True`, the number 1,
`null` or an absent field — coerces to false, so a valid owned request with
such a value always stores the alert unresolved with `resolved_at` null. -/
theorem updateAlertStatus_coercion_default_false (st : List Alert)
    (pathId now : Nat) (b : AlertUpdateBody) (h0 : b.alertId ≠ 0)
    (hv : b.resolved ≠ .bool true ∧ b.resolved ≠ .str "true")
    (hown : ∃ a ∈ st, a.id = b.alertId ∧ a.device_id = pathId) :
    coerceResolved b.resolved = false ∧
    coerceResolved (.bool false) = false ∧
    coerceResolved (.str "false") = false ∧
    coerceResolved (.str "True") = false ∧
    coerceResolved (.num (.int 1)) = false ∧
    coerceResolved .null = false ∧
    coerceResolved .undef = false ∧
    (∀ x ∈ (updateAlertStatus st pathId b now).2, x.id = b.alertId →
      x.resolved = false ∧ x.resolved_at = none) := by
  have hcr : coerceResolved b.resolved = false := by
    have h1 : (b.resolved == JVal.bool true) = false := by
      cases hbe : b.resolved == JVal.bool true
      · rfl
      · exact absurd (eq_of_beq hbe) hv.1
    have h2 : (b.resolved == JVal.str "true") = false := by
      cases hbe : b.resolved == JVal.str "true"
      · rfl
      · exact absurd (eq_of_beq hbe) hv.2
    simp [coerceResolved, h1, h2]
  refine ⟨hcr, rfl, rfl, rfl, rfl, rfl, rfl, ?_⟩
  intro x hx hxid
  rw [updateAlertStatus_state st pathId b now h0 hown] at hx
  obtain ⟨hres, hat⟩ := alert_fields_after st b now x hx hxid
  rw [hcr] at hres hat
  simp only [Bool.false_eq_true, if_false] at hat
  exact ⟨hres, hat⟩

/-- Witness for C9: the string `True` (capitalised) does not count as true
and marks the owned alert unresolved. -/
theorem updateAlertStatus_coercion_default_false_witness :
    (updateAlertStatus [⟨4, 6, 10, true, some 3⟩] 6 ⟨4, .str "True"⟩ 99).2 =
      [⟨4, 6, 10, false, none⟩] ∧
    coerceResolved (.str "True") = false :=
  ⟨by decide,
   (updateAlertStatus_coercion_default_false [⟨4, 6, 10, true, some 3⟩] 6 99
     ⟨4, .str "True"⟩ (by decide) (by decide) (by decide)).1⟩

/-! ### Manual feed normalization (C4) -/

theorem toNumber_eq_num (v : JVal) (h1 : v ≠ .null) (h2 : v ≠ .undef) :
    toNumber v = .num (jsNumber v) := by
  cases v <;> simp_all [toNumber, jsNumber]

theorem volParam_jOrNull_num (m : JsNum) :
    volParam (jOrNull (.num m)) =
      match m with
      | .int i => if i = 0 then none else some i
      | .nan => none := by
  cases m with
  | int i =>
      by_cases h : i = 0 <;>
        simp [jOrNull, JVal.truthy, volParam, h, bne_iff_ne]
  | nan => simp [jOrNull, JVal.truthy, volParam]

/-- C4 counterexample: a manual feed with `volume_grams = -5` stores
`volume_grams = -5`, not null (negative numbers are truthy in JavaScript),
and a present-but-empty `actor` string is replaced by `user`. -/
theorem triggerFeed_negative_volume_counterexample :
    triggerFeed [] 3 ⟨.num (.int (-5)), .str ""⟩ 1 0 =
      (.ok 201 ⟨1, 3, 0, "MANUAL", some (-5), "user"⟩,
       [⟨1, 3, 0, "MANUAL", some (-5), "user"⟩]) ∧
    some (-5 : Int) ≠ (none : Option Int) ∧ "user" ≠ "" := by decide

/-- C4 (amended): every manual feed inserts exactly one log row with
`mode = 'MANUAL'`; the actor is the body actor when it is a truthy string and
`user` when the actor is falsy or absent; `volume_grams` becomes null when
the body value is null, absent, coerces to 0 or is NaN, while any other
number — negative values included — is stored as is.  The handler answers
201 with the created row. -/
theorem triggerFeed_manual_log (st : List FeedingLog) (pathId : Nat)
    (b : FeedBody) (newId now : Nat) :
    triggerFeed st pathId b newId now =
      (.ok 201 (feedLogRow pathId b newId now),
       st ++ [feedLogRow pathId b newId now]) ∧
    (feedLogRow pathId b newId now).mode = "MANUAL" ∧
    (feedLogRow pathId b newId now).device_id = pathId ∧
    (feedLogRow pathId b newId now).id = newId ∧
    (feedLogRow pathId b newId now).ts = now ∧
    (b.actor.truthy = false → (feedLogRow pathId b newId now).actor = "user") ∧
    (∀ s, b.actor = .str s → s ≠ "" →
      (feedLogRow pathId b newId now).actor = s) ∧
    (b.volume_grams = .null ∨ b.volume_grams = .undef →
      (feedLogRow pathId b newId now).volume_grams = none) ∧
    (∀ i : Int, jsNumber b.volume_grams = .int i → b.volume_grams ≠ .null →
      b.volume_grams ≠ .undef →
      (feedLogRow pathId b newId now).volume_grams =
        if i = 0 then none else some i) ∧
    (jsNumber b.volume_grams = .nan → b.volume_grams ≠ .null →
      b.volume_grams ≠ .undef →
      (feedLogRow pathId b newId now).volume_grams = none) := by
  refine ⟨rfl, rfl, rfl, rfl, rfl, ?_, ?_, ?_, ?_, ?_⟩
  · intro h
    simp [feedLogRow, jOrDefault, h, jsParamText]
  · intro s hs hne
    simp [feedLogRow, jOrDefault, hs, JVal.truthy, jsParamText, bne_iff_ne, hne]
  · rintro (h | h) <;>
      simp [feedLogRow, h, toNumber, jOrNull, JVal.truthy, volParam]
  · intro i hi h1 h2
    simp [feedLogRow, toNumber_eq_num b.volume_grams h1 h2, hi,
      volParam_jOrNull_num]
  · intro hn h1 h2
    simp [feedLogRow, toNumber_eq_num b.volume_grams h1 h2, hn,
      volParam_jOrNull_num]

/-- Witness for C4 (amended): a zero volume collapses to null and an absent
actor defaults to `user`. -/
theorem triggerFeed_manual_log_witness :
    triggerFeed [] 3 ⟨.num (.int 0), .undef⟩ 1 5 =
      (.ok 201 ⟨1, 3, 5, "MANUAL", none, "user"⟩,
       [⟨1, 3, 5, "MANUAL", none, "user"⟩]) ∧
    (feedLogRow 3 ⟨.num (.int 0), .undef⟩ 1 5).volume_grams = none :=
  ⟨(triggerFeed_manual_log [] 3 ⟨.num (.int 0), .undef⟩ 1 5).1,
   (triggerFeed_manual_log [] 3 ⟨.num (.int 0), .undef⟩ 1 5).2.2.2.2.2.2.2.2.1
     0 rfl (by decide) (by decide)⟩

/-! ### Schedule creation normalization (C10) -/

/-- C10: in `createFeedingSetting` the optional fields `name`,
`interval_hours`, `feed_volume_grams`, `start_date` and `end_date` go through
a falsy-to-null collapse, so a supplied 0 for `interval_hours` or
`feed_volume_grams` is stored as null, while `enabled` is passed raw: a false
`enabled` survives, and it defaults to true only when null or absent. -/
theorem createFeedingSetting_falsy_collapse (st : List Schedule)
    (pathId : Nat) (b : CreateScheduleBody) (newId : Nat)
    (ih fv : Option Int) (en : Option Bool)
    (ht : b.type.truthy = true)
    (hi : jsParamInt (jOrNull b.interval_hours) = some ih)
    (hf : jsParamInt (jOrNull b.feed_volume_grams) = some fv)
    (he : jsParamBool b.enabled = some en) :
    createFeedingSetting st pathId b newId =
      (.ok 201 ⟨newId, pathId, jsParamText (jOrNull b.name), jsParamText b.type,
        ih, fv, en.getD true, jsParamText (jOrNull b.start_date),
        jsParamText (jOrNull b.end_date)⟩,
       st ++ [⟨newId, pathId, jsParamText (jOrNull b.name), jsParamText b.type,
        ih, fv, en.getD true, jsParamText (jOrNull b.start_date),
        jsParamText (jOrNull b.end_date)⟩]) ∧
    (b.interval_hours = .num (.int 0) → ih = none) ∧
    (b.feed_volume_grams = .num (.int 0) → fv = none) ∧
    (b.interval_hours.truthy = false → ih = none) ∧
    (b.feed_volume_grams.truthy = false → fv = none) ∧
    (b.name.truthy = false → jsParamText (jOrNull b.name) = none) ∧
    (b.start_date.truthy = false → jsParamText (jOrNull b.start_date) = none) ∧
    (b.end_date.truthy = false → jsParamText (jOrNull b.end_date) = none) ∧
    (b.enabled = .bool false → en.getD true = false) ∧
    (b.enabled = .null ∨ b.enabled = .undef → en.getD true = true) := by
  refine ⟨?_, ?_, ?_, ?_, ?_, ?_, ?_, ?_, ?_, ?_⟩
  · simp [createFeedingSetting, ht, hi, hf, he]
  · intro h0
    rw [h0] at hi
    simp [jOrNull, JVal.truthy, jsParamInt] at hi
    exact hi.symm
  · intro h0
    rw [h0] at hf
    simp [jOrNull, JVal.truthy, jsParamInt] at hf
    exact hf.symm
  · intro h0
    rw [jOrNull, if_neg (by simp [h0])] at hi
    simp [jsParamInt] at hi
    exact hi.symm
  · intro h0
    rw [jOrNull, if_neg (by simp [h0])] at hf
    simp [jsParamInt] at hf
    exact hf.symm
  · intro h0
    rw [jOrNull, if_neg (by simp [h0])]
    rfl
  · intro h0
    rw [jOrNull, if_neg (by simp [h0])]
    rfl
  · intro h0
    rw [jOrNull, if_neg (by simp [h0])]
    rfl
  · intro h0
    rw [h0] at he
    simp [jsParamBool] at he
    rw [he.symm]
    rfl
  · rintro (h0 | h0) <;>
      · rw [h0] at he
        simp [jsParamBool] at he
        rw [he.symm]
        rfl

/-- Witness for C10: zero interval and volume are stored as null while an
explicit false `enabled` survives. -/
theorem createFeedingSetting_falsy_collapse_witness :
    createFeedingSetting [] 7
      ⟨.null, .str "interval", .num (.int 0), .num (.int 0), .null, .null,
        .bool false⟩ 2 =
      (.ok 201 ⟨2, 7, none, some "interval", none, none, false, none, none⟩,
       [⟨2, 7, none, some "interval", none, none, false, none, none⟩]) :=
  (createFeedingSetting_falsy_collapse [] 7
    ⟨.null, .str "interval", .num (.int 0), .num (.int 0), .null, .null,
      .bool false⟩ 2 none none (some false) rfl rfl rfl rfl).1

/-! ### Condition history (C6) -/

/-- C6: condition history returns only stored readings of the requested
aquarium whose timestamp lies within the inclusive `start`/`end` bounds when
given, in descending timestamp order, and at most 500 rows. -/
theorem getConditionHistory_bounds_desc_cap (rows : List SensorReading)
    (pathId : Nat) (tstart tend : Option Nat) :
    (∀ x ∈ getConditionHistory rows pathId tstart tend,
      x ∈ rows ∧ x.device_id = pathId ∧
      (∀ t, tstart = some t → t ≤ x.ts) ∧
      (∀ t, tend = some t → x.ts ≤ t)) ∧
    (getConditionHistory rows pathId tstart tend).Pairwise
      (fun a b => b.ts ≤ a.ts) ∧
    (getConditionHistory rows pathId tstart tend).length ≤ 500 := by
  refine ⟨?_, ?_, ?_⟩
  · intro x hx
    simp only [getConditionHistory] at hx
    have hx1 := List.take_subset 500 _ hx
    have hx2 := (sortDescBy_perm (fun s : SensorReading => s.ts) _).mem_iff.mp hx1
    obtain ⟨hmem, hpred⟩ := List.mem_filter.mp hx2
    rw [Bool.and_eq_true, Bool.and_eq_true] at hpred
    obtain ⟨⟨hdev, hs⟩, he⟩ := hpred
    refine ⟨hmem, by simpa using hdev, ?_, ?_⟩
    · intro t ht
      rw [ht] at hs
      simpa using hs
    · intro t ht
      rw [ht] at he
      simpa using he
  · have hp := pairwise_sortDescBy (fun s => s.ts) (rows.filter fun s =>
        s.device_id == pathId
        && (match tstart with | some t => t ≤ s.ts | none => true)
        && (match tend with | some t => s.ts ≤ t | none => true))
    exact hp.sublist (List.take_sublist 500 _)
  · exact List.length_take_le 500 _

/-- Witness for C6: on a concrete table, the reading at ts 15 of aquarium 1
is the only row between 10 and 20, and the bound facts follow from the
theorem. -/
theorem getConditionHistory_bounds_desc_cap_witness :
    getConditionHistory
      [⟨1, 1, 15, 3⟩, ⟨2, 1, 25, 4⟩, ⟨3, 2, 12, 5⟩, ⟨4, 1, 5, 6⟩] 1
      (some 10) (some 20) = [⟨1, 1, 15, 3⟩] ∧
    10 ≤ (⟨1, 1, 15, 3⟩ : SensorReading).ts :=
  ⟨by decide,
   ((getConditionHistory_bounds_desc_cap
      [⟨1, 1, 15, 3⟩, ⟨2, 1, 25, 4⟩, ⟨3, 2, 12, 5⟩, ⟨4, 1, 5, 6⟩] 1
      (some 10) (some 20)).1 ⟨1, 1, 15, 3⟩ (by decide)).2.2.1 10 rfl⟩

/-! ### Daily consumption (C5) -/

theorem getDailyConsumption_fst (logs : List FeedingLog) (dev : Nat) :
    (getDailyConsumption logs dev).map Prod.fst =
      (sortDescBy id (logDays logs dev)).take 30 := by
  simp [getDailyConsumption, List.map_map, Function.comp_def]

theorem mem_logDays (logs : List FeedingLog) (dev d : Nat) :
    d ∈ logDays logs dev ↔ ∃ l ∈ logs, l.device_id = dev ∧ dayOf l.ts = d := by
  simp only [logDays, List.mem_dedup, List.mem_map, List.mem_filter,
    beq_iff_eq]
  constructor
  · rintro ⟨l, ⟨h1, h2⟩, h3⟩
    exact ⟨l, h1, h2, h3⟩
  · rintro ⟨l, h1, h2, h3⟩
    exact ⟨l, ⟨h1, h2⟩, h3⟩

/-- C5: the daily-consumption result has one entry per day on which the
aquarium has feeding logs, with `consumed` the coerced SQL sum of the day,
ordered by day descending, capped at the 30 most recent days, as on the
worked example with logs of 5g and 3g on day 1 and 10g on day 2. -/
theorem getDailyConsumption_grouped_desc (logs : List FeedingLog) (dev : Nat) :
    (getDailyConsumption logs dev).length ≤ 30 ∧
    (getDailyConsumption logs dev).Pairwise (fun p q => q.1 ≤ p.1) ∧
    ((getDailyConsumption logs dev).map Prod.fst).Nodup ∧
    (∀ p ∈ getDailyConsumption logs dev,
      (∃ l ∈ logs, l.device_id = dev ∧ dayOf l.ts = p.1) ∧
      p.2 = jsonConsumed (daySumOpt logs dev p.1)) ∧
    ((logDays logs dev).length ≤ 30 →
      ∀ l ∈ logs, l.device_id = dev →
        dayOf l.ts ∈ (getDailyConsumption logs dev).map Prod.fst) ∧
    (∀ p ∈ getDailyConsumption logs dev, ∀ d ∈ logDays logs dev,
      d ∉ (getDailyConsumption logs dev).map Prod.fst → d ≤ p.1) ∧
    getDailyConsumption
      [⟨1, 1, 86400, "MANUAL", some 5, "user"⟩,
       ⟨2, 1, 86410, "MANUAL", some 3, "user"⟩,
       ⟨3, 1, 172800, "MANUAL", some 10, "user"⟩] 1 = [(2, 10), (1, 8)] := by
  refine ⟨?_, ?_, ?_, ?_, ?_, ?_, by decide⟩
  · simp only [getDailyConsumption, List.length_map]
    exact List.length_take_le 30 _
  · rw [getDailyConsumption, List.pairwise_map]
    exact (pairwise_sortDescBy id _).sublist (List.take_sublist 30 _)
  · rw [getDailyConsumption_fst]
    have hnd : (sortDescBy id (logDays logs dev)).Nodup :=
      (sortDescBy_perm id _).nodup_iff.mpr (List.nodup_dedup _)
    exact hnd.sublist (List.take_sublist 30 _)
  · intro p hp
    obtain ⟨d, hd, rfl⟩ := List.mem_map.mp hp
    have hd2 : d ∈ sortDescBy id (logDays logs dev) := List.take_subset 30 _ hd
    have hd3 : d ∈ logDays logs dev := (sortDescBy_perm id _).mem_iff.mp hd2
    exact ⟨(mem_logDays logs dev d).mp hd3, rfl⟩
  · intro hlen l hl hdev
    rw [getDailyConsumption_fst]
    have hlen2 : (sortDescBy id (logDays logs dev)).length ≤ 30 := by
      rw [(sortDescBy_perm id (logDays logs dev)).length_eq]
      exact hlen
    rw [List.take_of_length_le hlen2]
    exact (sortDescBy_perm id _).mem_iff.mpr
      ((mem_logDays logs dev (dayOf l.ts)).mpr ⟨l, hl, hdev, rfl⟩)
  · intro p hp d hd hnot
    rw [getDailyConsumption_fst] at hnot
    have hp1 : p.1 ∈ (sortDescBy id (logDays logs dev)).take 30 := by
      have := List.mem_map_of_mem Prod.fst hp
      rwa [getDailyConsumption_fst] at this
    have hdsorted : d ∈ sortDescBy id (logDays logs dev) :=
      (sortDescBy_perm id _).mem_iff.mpr hd
    have hsplit := List.take_append_drop 30 (sortDescBy id (logDays logs dev))
    have hddrop : d ∈ (sortDescBy id (logDays logs dev)).drop 30 := by
      rcases List.mem_append.mp (by rw [hsplit]; exact hdsorted) with h | h
      · exact absurd h hnot
      · exact h
    have hpw := pairwise_sortDescBy id (logDays logs dev)
    rw [← hsplit, List.pairwise_append] at hpw
    exact hpw.2.2 p.1 hp1 d hddrop

/-- Witness for C5: on the worked example, the first entry of the result is
day 2 with the summed consumption 10. -/
theorem getDailyConsumption_grouped_desc_witness :
    getDailyConsumption
      [⟨1, 1, 86400, "MANUAL", some 5, "user"⟩,
       ⟨2, 1, 86410, "MANUAL", some 3, "user"⟩,
       ⟨3, 1, 172800, "MANUAL", some 10, "user"⟩] 1 = [(2, 10), (1, 8)] :=
  (getDailyConsumption_grouped_desc [] 0).2.2.2.2.2.2

end Aqua
